import Mathlib

/-!
Shallow embedding of the ledger-entry core of this stellar-core tree:
trust-line domain logic (src/ledger/TrustFrame.cpp), data-entry storage
logic (src/ledger/DataFrame.cpp), and the bucket applicator driver
(src/bucket/BucketApplicator.cpp).  C++ int64 fields are embedded as Int,
uint32 flag words as Nat; in-place mutation becomes explicit state passing;
code that throws returns Option (none = exception).  SQL tables are embedded
as functions from the row key to an optional row, and the process-wide entry
cache as a function from key to Option (Option row): none = key unknown to
the cache, some none = cached as known absent, some (some r) = cached row.
-/

namespace Stellar

/-- INT64_MAX, the largest int64 value. -/
def INT64_MAX : Int := 9223372036854775807

/-- TrustFrame.h: AUTHORIZED_FLAG bit of the trust-line flags word. -/
def AUTHORIZED_FLAG : Nat := 1

/-- Liabilities record of the trust-line extension (XDR Liabilities). -/
structure Liabilities where
  buying : Int
  selling : Int
deriving Repr, DecidableEq

/-- TrustLineEntry.ext: v0 = no liabilities extension, v1 = liabilities. -/
inductive TrustLineExt where
  | v0 : TrustLineExt
  | v1 : Liabilities → TrustLineExt
deriving Repr, DecidableEq

/-- XDR Asset, restricted to the shape this core inspects: native, or a
credit asset carrying an issuer account and an asset code.  Account ids,
issuer ids and asset codes are string keys (the source converts XDR keys to
strings via KeyUtils::toStrKey / assetCodeToStr, code outside src). -/
inductive Asset where
  | native : Asset
  | alphaNum4 : String → String → Asset
  | alphaNum12 : String → String → Asset
deriving Repr, DecidableEq

/-- getIssuer(asset): issuer string of a credit asset (unused for native). -/
def Asset.issuerStr : Asset → String
  | .native => ""
  | .alphaNum4 iss _ => iss
  | .alphaNum12 iss _ => iss

/-- Asset code string of a credit asset (unused for native). -/
def Asset.codeStr : Asset → String
  | .native => ""
  | .alphaNum4 _ code => code
  | .alphaNum12 _ code => code

/-- XDR TrustLineEntry, with the shared lastModifiedLedgerSeq of its
enclosing LedgerEntry folded in. -/
structure TrustLineEntry where
  accountID : String
  asset : Asset
  balance : Int
  limit : Int
  flags : Nat
  ext : TrustLineExt
  lastModified : Nat
deriving Repr, DecidableEq

/-- TrustFrame: the in-memory frame, a TrustLineEntry plus the mIsIssuer
marker of the synthetic issuer line. -/
structure TrustFrame where
  mTrustLine : TrustLineEntry
  mIsIssuer : Bool
deriving Repr, DecidableEq

/-- Modelled from the spec: stellar::addBalance of util/types.cpp (not under
src/).  Per the spec it computes newBalance = balance + delta and fails if
that would leave [0, maxBalance]; on success the updated balance is
returned.  Embedded as an Option-valued pure function. -/
def addBalanceHelper (balance delta maxBalance : Int) : Option Int :=
  if 0 ≤ balance + delta ∧ balance + delta ≤ maxBalance then
    some (balance + delta)
  else
    none

/-- TrustFrame::isAuthorized: tests the AUTHORIZED_FLAG bit. -/
def TrustFrame.isAuthorized (tf : TrustFrame) : Bool :=
  Nat.land tf.mTrustLine.flags AUTHORIZED_FLAG ≠ 0

/-- stellar::getBuyingLiabilities on a TrustLineEntry: 0 when the extension
is absent, the stored buying liabilities otherwise. -/
def TrustLineEntry.buyingLiabilities (tl : TrustLineEntry) : Int :=
  match tl.ext with
  | .v0 => 0
  | .v1 l => l.buying

/-- stellar::getSellingLiabilities on a TrustLineEntry: 0 when the extension
is absent, the stored selling liabilities otherwise. -/
def TrustLineEntry.sellingLiabilities (tl : TrustLineEntry) : Int :=
  match tl.ext with
  | .v0 => 0
  | .v1 l => l.selling

/-- TrustFrame::getBuyingLiabilities. -/
def TrustFrame.buyingLiabilities (tf : TrustFrame) : Int :=
  tf.mTrustLine.buyingLiabilities

/-- TrustFrame::getSellingLiabilities. -/
def TrustFrame.sellingLiabilities (tf : TrustFrame) : Int :=
  tf.mTrustLine.sellingLiabilities

/-- TrustFrame::addBalance(delta, lm): returns the C++ boolean result and
the frame after the call (mutation made explicit).  protocolVersion is
lm.getCurrentLedgerVersion(). -/
def TrustFrame.addBalance (tf : TrustFrame) (delta : Int)
    (protocolVersion : Nat) : Bool × TrustFrame :=
  if tf.mIsIssuer ∨ delta = 0 then
    (true, tf)
  else if ¬ tf.isAuthorized then
    (false, tf)
  else
    match addBalanceHelper tf.mTrustLine.balance delta tf.mTrustLine.limit with
    | none => (false, tf)
    | some newBalance =>
      if protocolVersion ≥ 10 ∧ newBalance < tf.sellingLiabilities then
        (false, tf)
      else if protocolVersion ≥ 10 ∧
          newBalance > tf.mTrustLine.limit - tf.buyingLiabilities then
        (false, tf)
      else
        (true, { tf with mTrustLine := { tf.mTrustLine with balance := newBalance } })

/-- TrustFrame::addBuyingLiabilities(delta, lm); requires (source assert)
protocolVersion ≥ 10.  Returns the boolean result and the frame after the
call. -/
def TrustFrame.addBuyingLiabilities (tf : TrustFrame) (delta : Int) :
    Bool × TrustFrame :=
  if tf.mIsIssuer ∨ delta = 0 then
    (true, tf)
  else if ¬ tf.isAuthorized then
    (false, tf)
  else
    let buyingLiab := tf.mTrustLine.buyingLiabilities
    let maxLiabilities := tf.mTrustLine.limit - tf.mTrustLine.balance
    match addBalanceHelper buyingLiab delta maxLiabilities with
    | none => (false, tf)
    | some newLiab =>
      let selling :=
        match tf.mTrustLine.ext with
        | .v0 => 0
        | .v1 l => l.selling
      (true, { tf with mTrustLine :=
        { tf.mTrustLine with ext := .v1 ⟨newLiab, selling⟩ } })

/-- TrustFrame::addSellingLiabilities(delta, lm); requires (source assert)
protocolVersion ≥ 10.  Returns the boolean result and the frame after the
call. -/
def TrustFrame.addSellingLiabilities (tf : TrustFrame) (delta : Int) :
    Bool × TrustFrame :=
  if tf.mIsIssuer ∨ delta = 0 then
    (true, tf)
  else if ¬ tf.isAuthorized then
    (false, tf)
  else
    let sellingLiab := tf.mTrustLine.sellingLiabilities
    let maxLiabilities := tf.mTrustLine.balance
    match addBalanceHelper sellingLiab delta maxLiabilities with
    | none => (false, tf)
    | some newLiab =>
      let buying :=
        match tf.mTrustLine.ext with
        | .v0 => 0
        | .v1 l => l.buying
      (true, { tf with mTrustLine :=
        { tf.mTrustLine with ext := .v1 ⟨buying, newLiab⟩ } })

/-- TrustFrame::getMaxAmountReceive(lm). -/
def TrustFrame.getMaxAmountReceive (tf : TrustFrame)
    (protocolVersion : Nat) : Int :=
  if tf.mIsIssuer then
    INT64_MAX
  else if tf.isAuthorized then
    let amount := tf.mTrustLine.limit - tf.mTrustLine.balance
    if protocolVersion ≥ 10 then amount - tf.buyingLiabilities else amount
  else
    0

/-- Primary key of the trustlines table: (accountid, issuer, assetcode)
string columns. -/
structure TLKey where
  accountid : String
  issuer : String
  assetcode : String
deriving Repr, DecidableEq

/-- One row of the trustlines table.  The buyingliabilities and
sellingliabilities columns are NULL together exactly when the entry had no
liabilities extension, so they are embedded as one optional pair. -/
structure TLRow where
  assettype : Nat
  balance : Int
  tlimit : Int
  flags : Nat
  lastmodified : Nat
  liabilities : Option Liabilities
deriving Repr, DecidableEq

/-- The trustlines table: key to optional row. -/
def TLStore := TLKey → Option TLRow

/-- Write (or erase, with none) one row of the trustlines table. -/
def TLStore.set (db : TLStore) (k : TLKey) (v : Option TLRow) : TLStore :=
  fun k2 => if k2 = k then v else db k2

/-- Modelled from the spec: the process-wide entry cache consumed through
the EntryFrame cache hooks (EntryFrame.cpp is not under src/); it maps a key
to nothing (unknown), to a cached known absent marker, or to a cached entry
snapshot. -/
def TLCache := TLKey → Option (Option TrustLineEntry)

/-- Modelled from the spec: EntryFrame::flushCachedEntry erases the cache
slot for the key (back to unknown). -/
def TLCache.flushCachedEntry (c : TLCache) (k : TLKey) : TLCache :=
  fun k2 => if k2 = k then none else c k2

/-- Modelled from the spec: EntryFrame::putCachedEntry stores an optional
entry snapshot for the key (none records known absent). -/
def TLCache.putCachedEntry (c : TLCache) (k : TLKey)
    (p : Option TrustLineEntry) : TLCache :=
  fun k2 => if k2 = k then some p else c k2

/-- Modelled from the spec: the Ledger Delta (LedgerDelta.cpp is not under
src/) — the transient record of keys added, modified and deleted during one
unit of application, plus the sequence number of the ledger header it tracks
(0 while importing buckets). -/
structure LedgerDelta (κ : Type) where
  ledgerSeq : Nat
  added : List κ
  modified : List κ
  deleted : List κ
deriving Repr, DecidableEq

/-- Modelled from the spec: record a key as added in the delta. -/
def LedgerDelta.addEntry {κ : Type} (d : LedgerDelta κ) (k : κ) :
    LedgerDelta κ :=
  { d with added := k :: d.added }

/-- Modelled from the spec: record a key as modified in the delta. -/
def LedgerDelta.modEntry {κ : Type} (d : LedgerDelta κ) (k : κ) :
    LedgerDelta κ :=
  { d with modified := k :: d.modified }

/-- Modelled from the spec: record a key as deleted in the delta. -/
def LedgerDelta.deleteEntry {κ : Type} (d : LedgerDelta κ) (k : κ) :
    LedgerDelta κ :=
  { d with deleted := k :: d.deleted }

/-- XDR asset type tag (ASSET_TYPE_NATIVE = 0, ALPHANUM4 = 1,
ALPHANUM12 = 2). -/
def Asset.typeTag : Asset → Nat
  | .native => 0
  | .alphaNum4 _ _ => 1
  | .alphaNum12 _ _ => 2

/-- The trustlines key of a trust-line entry (accountid, issuer,
assetcode as strings). -/
def TrustLineEntry.key (tl : TrustLineEntry) : TLKey :=
  ⟨tl.accountID, tl.asset.issuerStr, tl.asset.codeStr⟩

/-- TrustFrame::getKeyFields: derives the string key fields and throws
(none) when the account is the issuer of the asset (an issuer self
trustline must not be used here). -/
def getKeyFields (k : TLKey) : Option TLKey :=
  if k.accountid = k.issuer then none else some k

/-- EntryFrame::touch(delta) (behaviour stated in EntryFrame.h): set
lastModified to the tracked header sequence unless that sequence is 0. -/
def TrustFrame.touched (tf : TrustFrame) (seq : Nat) : TrustFrame :=
  if seq ≠ 0 then
    { tf with mTrustLine := { tf.mTrustLine with lastModified := seq } }
  else
    tf

/-- The trustlines row written for a frame by TrustFrame::storeAddOrChange
(liabilities columns NULL when the extension is absent). -/
def TrustFrame.toRow (tf : TrustFrame) : TLRow :=
  { assettype := tf.mTrustLine.asset.typeTag
    balance := tf.mTrustLine.balance
    tlimit := tf.mTrustLine.limit
    flags := tf.mTrustLine.flags
    lastmodified := tf.mTrustLine.lastModified
    liabilities :=
      match tf.mTrustLine.ext with
      | .v0 => none
      | .v1 l => some l }

/-- The mutable state threaded through trust-line storage operations: the
delta of the current unit of application, the entry cache, and the
trustlines table. -/
structure TLState where
  delta : LedgerDelta TLKey
  cache : TLCache
  db : TLStore

/-- trustlinesAccumulator::mItems: map from trustline key to a pending
write — some row is a pending upsert, none is a pending delete (the null
valType pointer); a key not in the map has nothing staged. -/
def TLAccum := TLKey → Option (Option TLRow)

/-- mItems[k] = v: stage a pending write, overwriting any staged value. -/
def TLAccum.stage (a : TLAccum) (k : TLKey) (v : Option TLRow) : TLAccum :=
  fun k2 => if k2 = k then some v else a k2

/-- The trustlinesAccumulator destructor: partition the staged items into
upserts (one vectorized INSERT ... ON CONFLICT DO UPDATE over every present
key) and deletes (one vectorized DELETE over every absent key) and execute
both against the table; per key the staged value wins and unstaged keys
keep their prior row. -/
def TLAccum.flush (a : TLAccum) (db : TLStore) : TLStore :=
  fun k =>
    match a k with
    | some v => v
    | none => db k

/-- TrustFrame::storeDelete(delta, db, key, accums): EntryDeleter records
the key as deleted in the delta (LedgerDelta.cpp not under src/, modelled
from the spec), the cached entry is flushed, getKeyFields throws (none) on
an issuer self key; then the pending delete is staged into the accumulator
when one is given, else the row is deleted directly with no affected-row
check, so deleting an absent key is accepted. -/
def TrustFrame.storeDelete (key : TLKey) (st : TLState)
    (accums : Option TLAccum) : Option (TLState × Option TLAccum) :=
  let delta2 := st.delta.deleteEntry key
  let cache2 := st.cache.flushCachedEntry key
  match getKeyFields key with
  | none => none
  | some _ =>
    match accums with
    | some a =>
      some ({ st with delta := delta2, cache := cache2 }, some (a.stage key none))
    | none =>
      some ({ delta := delta2, cache := cache2, db := st.db.set key none }, none)

/-- TrustFrame::storeAddOrChange(delta, db, accums): EntryModder records the
entry in the delta (LedgerDelta.cpp not under src/; modelled from the spec:
recorded as added when no row with the key exists in storage, modified
otherwise), the cached entry is flushed, issuer frames return with no
further effect; otherwise the frame is touched, getKeyFields throws (none)
on an issuer self key, and the row is staged into the accumulator when one
is given, else upserted directly (the upsert affects exactly one row, so
the affected-rows check passes). -/
def TrustFrame.storeAddOrChange (tf : TrustFrame) (st : TLState)
    (accums : Option TLAccum) : Option (TLState × Option TLAccum) :=
  let key := tf.mTrustLine.key
  let delta2 :=
    if (st.db key).isSome then st.delta.modEntry key else st.delta.addEntry key
  let cache2 := st.cache.flushCachedEntry key
  if tf.mIsIssuer then
    some ({ st with delta := delta2, cache := cache2 }, accums)
  else
    let tf2 := tf.touched st.delta.ledgerSeq
    match getKeyFields key with
    | none => none
    | some _ =>
      match accums with
      | some a =>
        some ({ st with delta := delta2, cache := cache2 },
          some (a.stage key (some tf2.toRow)))
      | none =>
        some ({ delta := delta2, cache := cache2,
                db := st.db.set key (some tf2.toRow) }, none)

/-- TrustFrame::exists(db, key): a cache hit holding an entry returns true
with no storage query; in every other case (cache miss or cached known
absent) the SQL existence probe runs after getKeyFields (which throws, none,
on an issuer self key).  The boolean result is paired with whether a
storage query was issued. -/
def TrustFrame.exists (cache : TLCache) (db : TLStore) (key : TLKey) :
    Option (Bool × Bool) :=
  match cache key with
  | some (some _) => some (true, false)
  | _ =>
    match getKeyFields key with
    | none => none
    | some _ => some ((db key).isSome, true)

/-- TrustFrame::createIssuerFrame(asset): the synthetic issuer trust line —
a default-constructed frame (zero fields, v0 extension) with mIsIssuer set,
account = issuer of the asset, AUTHORIZED_FLAG or-ed into the zero flags
word, and balance = limit = INT64_MAX.  Pure construction: it takes no
storage and issues no query. -/
def TrustFrame.createIssuerFrame (asset : Asset) : TrustFrame :=
  { mIsIssuer := true
    mTrustLine :=
      { accountID := asset.issuerStr
        asset := asset
        balance := INT64_MAX
        limit := INT64_MAX
        flags := Nat.lor 0 AUTHORIZED_FLAG
        ext := .v0
        lastModified := 0 } }

/-- Rebuild the trust-line entry held by a loaded row (TrustFrame::loadLines
row processing; key strings are mapped back through the string embedding of
XDR keys). -/
def rowToEntry (k : TLKey) (r : TLRow) : TrustLineEntry :=
  { accountID := k.accountid
    asset :=
      if r.assettype = 1 then .alphaNum4 k.issuer k.assetcode
      else .alphaNum12 k.issuer k.assetcode
    balance := r.balance
    limit := r.tlimit
    flags := r.flags
    ext :=
      match r.liabilities with
      | none => .v0
      | some l => .v1 l
    lastModified := r.lastmodified }

/-- TrustFrame::loadTrustLine(accountID, asset, db) with a null delta:
throws (none) for the native asset; returns the synthetic issuer frame with
no storage query and no cache access when the account is the issuer of the
asset; otherwise a cache hit holding an entry yields a frame from the cache
with no query, and in every other case the SQL load runs and the cache is
populated with the loaded entry, or with known absent on a miss.  The
result carries the loaded frame (none = no such line), whether a storage
query was issued, and the cache after the call. -/
def TrustFrame.loadTrustLine (accountID : String) (asset : Asset)
    (cache : TLCache) (db : TLStore) :
    Option (Option TrustFrame × Bool × TLCache) :=
  match asset with
  | .native => none
  | _ =>
    if accountID = asset.issuerStr then
      some (some (TrustFrame.createIssuerFrame asset), false, cache)
    else
      let key : TLKey := ⟨accountID, asset.issuerStr, asset.codeStr⟩
      match cache key with
      | some (some e) => some (some ⟨e, false⟩, false, cache)
      | _ =>
        match db key with
        | some r =>
          let e := rowToEntry key r
          some (some ⟨e, false⟩, true, cache.putCachedEntry key (some e))
        | none =>
          some (none, true, cache.putCachedEntry key none)

/-- Primary key of the accountdata table: (accountid, dataname). -/
structure DataKey where
  accountid : String
  dataname : String
deriving Repr, DecidableEq

/-- One row of the accountdata table.  Base64 encoding of the value
(util/Decoder, not under src/) is embedded as the identity injection. -/
structure DataRow where
  datavalue : String
  lastmodified : Nat
deriving Repr, DecidableEq

/-- An accountdata table: key to optional row. -/
def DataStore := DataKey → Option DataRow

/-- Write (or erase, with none) one row of an accountdata table. -/
def DataStore.set (db : DataStore) (k : DataKey) (v : Option DataRow) :
    DataStore :=
  fun k2 => if k2 = k then v else db k2

/-- The slice of the process-wide entry cache keyed by data entries.
DataFrame code never reads or writes it; it is threaded through the
DataFrame operations to record that. -/
def DataCache := DataKey → Option (Option DataRow)

/-- The accountdata storage: the primary table plus the accountdata_bulk
staging table targeted by the bulk path. -/
structure DataDb where
  main : DataStore
  bulkTable : DataStore

/-- XDR DataEntry: account, name and value of one data entry. -/
structure DataEntry where
  accountID : String
  dataName : String
  dataValue : String
deriving Repr, DecidableEq

/-- DataFrame: the in-memory frame, a DataEntry plus the enclosing
LedgerEntry lastModifiedLedgerSeq. -/
structure DataFrame where
  mData : DataEntry
  lastModified : Nat
deriving Repr, DecidableEq

/-- DataFrame::exists(db, key): always runs the SQL existence probe — the
entry cache is not consulted.  The boolean result is paired with whether a
storage query was issued (always true). -/
def DataFrame.exists (db : DataDb) (key : DataKey) : Bool × Bool :=
  ((db.main key).isSome, true)

/-- DataFrame::storeDelete(delta, db, key): deletes the row with no
affected-row check (deleting an absent key is accepted) and records the key
as deleted in the delta.  The entry cache is not touched: it is threaded
through unchanged. -/
def DataFrame.storeDelete (delta : LedgerDelta DataKey) (cache : DataCache)
    (db : DataDb) (key : DataKey) :
    LedgerDelta DataKey × DataCache × DataDb :=
  (delta.deleteEntry key, cache, { db with main := db.main.set key none })

/-- DataFrame::storeAddOrChange(delta, db, mode, bulk): touches the frame,
then mode 0 takes the postgres upsert path (the source forces pg with
true || db.isPG()): INSERT ... ON CONFLICT DO UPDATE ... RETURNING xmax
against accountdata, or accountdata_bulk when bulk, with xmax = 0 exactly
on a fresh insert; mode 2 runs the plain UPDATE, whose affected-row count
must be 1, so a missing key throws (none); any other mode runs the plain
INSERT, where a duplicate key violates the primary key (none).  On success
the entry is recorded in the delta as added exactly when the insert branch
fired, as modified otherwise.  The entry cache is not touched: it is
threaded through unchanged. -/
def DataFrame.storeAddOrChange (df : DataFrame) (delta : LedgerDelta DataKey)
    (cache : DataCache) (db : DataDb) (mode : Nat) (bulk : Bool) :
    Option (LedgerDelta DataKey × DataCache × DataDb) :=
  let df2 :=
    if delta.ledgerSeq ≠ 0 then { df with lastModified := delta.ledgerSeq }
    else df
  let key : DataKey := ⟨df2.mData.accountID, df2.mData.dataName⟩
  let row : DataRow := ⟨df2.mData.dataValue, df2.lastModified⟩
  if mode = 0 then
    let table := if bulk then db.bulkTable else db.main
    let inserted := (table key).isNone
    let table2 := table.set key (some row)
    let db2 :=
      if bulk then { db with bulkTable := table2 }
      else { db with main := table2 }
    if inserted then some (delta.addEntry key, cache, db2)
    else some (delta.modEntry key, cache, db2)
  else if mode = 2 then
    if (db.main key).isSome then
      some (delta.modEntry key, cache,
        { db with main := db.main.set key (some row) })
    else none
  else
    if (db.main key).isSome then none
    else
      some (delta.addEntry key, cache,
        { db with main := db.main.set key (some row) })

/-- BucketApplicator state: the running count of entries applied over every
call so far (mSize) and the remaining bucket entries (mBucketIter).  The
entry type is abstract: the per-entry dispatch (EntryFrame::FromXDR and the
per-type store calls) only changes database state, which the loop control
never consults. -/
structure BucketApplicator (α : Type) where
  mSize : Nat
  mBucketIter : List α
deriving Repr, DecidableEq

/-- BucketApplicator::operator bool: more work remains. -/
def BucketApplicator.hasMoreWork {α : Type} (b : BucketApplicator α) : Bool :=
  !b.mBucketIter.isEmpty

/-- The while loop of BucketApplicator::advance(): apply the next entry,
increment mSize, and break when (mSize and 0xff) = 0xff, that is when
mSize mod 256 = 255; otherwise continue until the bucket is exhausted. -/
def advanceLoop {α : Type} : Nat → List α → Nat × List α
  | s, [] => (s, [])
  | s, _ :: rest =>
    if (s + 1) % 256 = 255 then (s + 1, rest) else advanceLoop (s + 1) rest

/-- BucketApplicator::advance(): one call, from opening the transaction to
committing it. -/
def BucketApplicator.advance {α : Type} (b : BucketApplicator α) :
    BucketApplicator α :=
  ⟨(advanceLoop b.mSize b.mBucketIter).1, (advanceLoop b.mSize b.mBucketIter).2⟩

/-- BucketApplicator::BucketApplicator(db, bucket): a fresh applicator over
a bucket, with mSize = 0. -/
def BucketApplicator.mk0 {α : Type} (bucket : List α) : BucketApplicator α :=
  ⟨0, bucket⟩

/-- n repeated advance() calls. -/
def BucketApplicator.advanceN {α : Type} (b : BucketApplicator α) :
    Nat → BucketApplicator α
  | 0 => b
  | n + 1 => (b.advance).advanceN n

/-- The number of entries one advance() call processes from cumulative count
s with the bucket not yet exhausted: the distance to the next count that is
255 mod 256. -/
def advanceChunk (s : Nat) : Nat :=
  if s % 256 = 255 then 256 else 255 - s % 256

/-- Claim C10: for every trust line that is not an issuer line and whose
AUTHORIZED flag is clear, getMaxAmountReceive returns 0, regardless of
balance, limit, liabilities or protocol version. -/
theorem claim_C10 (tf : TrustFrame) (v : Nat)
    (hIss : tf.mIsIssuer = false) (hAuth : tf.isAuthorized = false) :
    tf.getMaxAmountReceive v = 0 := by
  simp [TrustFrame.getMaxAmountReceive, hIss, hAuth]

/-- Witness for claim C10: an unauthorized non-issuer line with balance 40,
limit 100 and protocol version 10 receives nothing. -/
theorem claim_C10_witness :
    TrustFrame.getMaxAmountReceive
      ⟨⟨"acc", .alphaNum4 "iss" "USD", 40, 100, 0, .v0, 0⟩, false⟩ 10 = 0 :=
  claim_C10 ⟨⟨"acc", .alphaNum4 "iss" "USD", 40, 100, 0, .v0, 0⟩, false⟩ 10
    rfl (by decide)

/-- Case characterization of TrustFrame::addBalance, used by the claim
theorems below. -/
theorem addBalance_cases (tf : TrustFrame) (delta : Int) (v : Nat) :
    tf.addBalance delta v =
      if tf.mIsIssuer = true ∨ delta = 0 then (true, tf)
      else if tf.isAuthorized = false then (false, tf)
      else if tf.mTrustLine.balance + delta < 0 ∨
          tf.mTrustLine.limit < tf.mTrustLine.balance + delta then (false, tf)
      else if 10 ≤ v ∧
          tf.mTrustLine.balance + delta < tf.sellingLiabilities then (false, tf)
      else if 10 ≤ v ∧ tf.mTrustLine.limit - tf.buyingLiabilities <
          tf.mTrustLine.balance + delta then (false, tf)
      else (true, { tf with mTrustLine :=
        { tf.mTrustLine with balance := tf.mTrustLine.balance + delta } }) := by
  unfold TrustFrame.addBalance addBalanceHelper
  simp only [ge_iff_le]
  by_cases h1 : tf.mIsIssuer = true ∨ delta = 0
  · rw [if_pos h1, if_pos h1]
  · rw [if_neg h1, if_neg h1]
    by_cases h2 : tf.isAuthorized = false
    · rw [if_pos (by simp [h2]), if_pos h2]
    · rw [if_neg (by simp [h2]), if_neg h2]
      by_cases h3 : tf.mTrustLine.balance + delta < 0 ∨
          tf.mTrustLine.limit < tf.mTrustLine.balance + delta
      · rw [if_neg (by omega), if_pos h3]
      · rw [if_pos (by omega), if_neg h3]

/-- Case characterization of TrustFrame::addBuyingLiabilities, used by the
claim theorems below. -/
theorem addBuyingLiabilities_cases (tf : TrustFrame) (delta : Int) :
    tf.addBuyingLiabilities delta =
      if tf.mIsIssuer = true ∨ delta = 0 then (true, tf)
      else if tf.isAuthorized = false then (false, tf)
      else if 0 ≤ tf.buyingLiabilities + delta ∧
          tf.buyingLiabilities + delta ≤
            tf.mTrustLine.limit - tf.mTrustLine.balance then
        (true, { tf with mTrustLine := { tf.mTrustLine with
          ext := .v1 ⟨tf.buyingLiabilities + delta, tf.sellingLiabilities⟩ } })
      else (false, tf) := by
  unfold TrustFrame.addBuyingLiabilities
  unfold addBalanceHelper
  by_cases h1 : tf.mIsIssuer = true ∨ delta = 0
  · rw [if_pos h1, if_pos h1]
  · rw [if_neg h1, if_neg h1]
    by_cases h2 : tf.isAuthorized = false
    · rw [if_pos (by simp [h2]), if_pos h2]
    · rw [if_neg (by simp [h2]), if_neg h2]
      cases hext : tf.mTrustLine.ext with
      | v0 =>
        simp only [TrustFrame.buyingLiabilities, TrustFrame.sellingLiabilities,
          TrustLineEntry.buyingLiabilities, TrustLineEntry.sellingLiabilities,
          hext]
        split_ifs <;> rfl
      | v1 l =>
        simp only [TrustFrame.buyingLiabilities, TrustFrame.sellingLiabilities,
          TrustLineEntry.buyingLiabilities, TrustLineEntry.sellingLiabilities,
          hext]
        split_ifs <;> rfl

/-- Case characterization of TrustFrame::addSellingLiabilities, used by the
claim theorems below. -/
theorem addSellingLiabilities_cases (tf : TrustFrame) (delta : Int) :
    tf.addSellingLiabilities delta =
      if tf.mIsIssuer = true ∨ delta = 0 then (true, tf)
      else if tf.isAuthorized = false then (false, tf)
      else if 0 ≤ tf.sellingLiabilities + delta ∧
          tf.sellingLiabilities + delta ≤ tf.mTrustLine.balance then
        (true, { tf with mTrustLine := { tf.mTrustLine with
          ext := .v1 ⟨tf.buyingLiabilities, tf.sellingLiabilities + delta⟩ } })
      else (false, tf) := by
  unfold TrustFrame.addSellingLiabilities
  unfold addBalanceHelper
  by_cases h1 : tf.mIsIssuer = true ∨ delta = 0
  · rw [if_pos h1, if_pos h1]
  · rw [if_neg h1, if_neg h1]
    by_cases h2 : tf.isAuthorized = false
    · rw [if_pos (by simp [h2]), if_pos h2]
    · rw [if_neg (by simp [h2]), if_neg h2]
      cases hext : tf.mTrustLine.ext with
      | v0 =>
        simp only [TrustFrame.buyingLiabilities, TrustFrame.sellingLiabilities,
          TrustLineEntry.buyingLiabilities, TrustLineEntry.sellingLiabilities,
          hext]
        split_ifs <;> rfl
      | v1 l =>
        simp only [TrustFrame.buyingLiabilities, TrustFrame.sellingLiabilities,
          TrustLineEntry.buyingLiabilities, TrustLineEntry.sellingLiabilities,
          hext]
        split_ifs <;> rfl

/-- Claim C1: TrustFrame::addBalance returns true without change when
delta = 0 or the line is an issuer line; returns false leaving the entry
unchanged when the AUTHORIZED flag is clear; returns false leaving the
entry unchanged when balance + delta would leave [0, limit], and, from
protocol version 10 on, also when balance + delta falls below the selling
liabilities or above limit minus the buying liabilities; in every remaining
case it returns true and the balance becomes balance + delta, and the entry
is mutated only on success. -/
theorem claim_C1 (tf : TrustFrame) (delta : Int) (v : Nat) :
    ((tf.mIsIssuer = true ∨ delta = 0) → tf.addBalance delta v = (true, tf)) ∧
    (tf.mIsIssuer = false → delta ≠ 0 → tf.isAuthorized = false →
      tf.addBalance delta v = (false, tf)) ∧
    (tf.mIsIssuer = false → delta ≠ 0 →
      (tf.mTrustLine.balance + delta < 0 ∨
        tf.mTrustLine.limit < tf.mTrustLine.balance + delta) →
      tf.addBalance delta v = (false, tf)) ∧
    (tf.mIsIssuer = false → delta ≠ 0 → 10 ≤ v →
      (tf.mTrustLine.balance + delta < tf.sellingLiabilities ∨
        tf.mTrustLine.limit - tf.buyingLiabilities <
          tf.mTrustLine.balance + delta) →
      tf.addBalance delta v = (false, tf)) ∧
    (tf.mIsIssuer = false → delta ≠ 0 → tf.isAuthorized = true →
      0 ≤ tf.mTrustLine.balance + delta →
      tf.mTrustLine.balance + delta ≤ tf.mTrustLine.limit →
      (10 ≤ v →
        tf.sellingLiabilities ≤ tf.mTrustLine.balance + delta ∧
        tf.mTrustLine.balance + delta ≤
          tf.mTrustLine.limit - tf.buyingLiabilities) →
      tf.addBalance delta v =
        (true, { tf with mTrustLine :=
          { tf.mTrustLine with
            balance := tf.mTrustLine.balance + delta } })) ∧
    ((tf.addBalance delta v).1 = false → (tf.addBalance delta v).2 = tf) := by
  refine ⟨?_, ?_, ?_, ?_, ?_, ?_⟩
  · intro h
    rw [addBalance_cases, if_pos h]
  · intro hI hd hA
    rw [addBalance_cases, if_neg (by simp [hI, hd]), if_pos hA]
  · intro hI hd hb
    rw [addBalance_cases, if_neg (by simp [hI, hd])]
    by_cases hA : tf.isAuthorized = false
    · rw [if_pos hA]
    · rw [if_neg hA, if_pos hb]
  · intro hI hd hv hb
    rw [addBalance_cases, if_neg (by simp [hI, hd])]
    by_cases hA : tf.isAuthorized = false
    · rw [if_pos hA]
    · rw [if_neg hA]
      by_cases h3 : tf.mTrustLine.balance + delta < 0 ∨
          tf.mTrustLine.limit < tf.mTrustLine.balance + delta
      · rw [if_pos h3]
      · rw [if_neg h3]
        rcases hb with hb | hb
        · rw [if_pos ⟨hv, hb⟩]
        · by_cases h4 : 10 ≤ v ∧
              tf.mTrustLine.balance + delta < tf.sellingLiabilities
          · rw [if_pos h4]
          · rw [if_neg h4, if_pos ⟨hv, hb⟩]
  · intro hI hd hA h0 hl hliab
    rw [addBalance_cases, if_neg (by simp [hI, hd]), if_neg (by simp [hA]),
      if_neg (by omega)]
    by_cases hv : 10 ≤ v
    · obtain ⟨hs, hb⟩ := hliab hv
      rw [if_neg (by omega), if_neg (by omega)]
    · rw [if_neg (by omega), if_neg (by omega)]
  · rw [addBalance_cases]
    split_ifs <;> simp

/-- Witness for claim C1, at the spec example line with limit 100, balance
40, authorized: addBalance(70) fails leaving balance 40, addBalance(60)
succeeds leaving balance 100. -/
theorem claim_C1_witness :
    TrustFrame.addBalance
      ⟨⟨"acc", .alphaNum4 "iss" "USD", 40, 100, 1, .v0, 0⟩, false⟩ 70 9 =
      (false, ⟨⟨"acc", .alphaNum4 "iss" "USD", 40, 100, 1, .v0, 0⟩, false⟩) ∧
    TrustFrame.addBalance
      ⟨⟨"acc", .alphaNum4 "iss" "USD", 40, 100, 1, .v0, 0⟩, false⟩ 60 9 =
      (true, ⟨⟨"acc", .alphaNum4 "iss" "USD", 100, 100, 1, .v0, 0⟩, false⟩) := by
  constructor
  · exact (claim_C1 ⟨⟨"acc", .alphaNum4 "iss" "USD", 40, 100, 1, .v0, 0⟩, false⟩
      70 9).2.2.1 rfl (by decide) (by decide)
  · have h := (claim_C1 ⟨⟨"acc", .alphaNum4 "iss" "USD", 40, 100, 1, .v0, 0⟩,
      false⟩ 60 9).2.2.2.2.1 rfl (by decide) (by decide) (by decide)
      (by decide) (by omega)
    refine h.trans ?_
    decide

/-- Claim C6: under the precondition that the protocol version is at least
10, addBuyingLiabilities and addSellingLiabilities return true without
change for issuer lines or delta = 0; return false leaving the entry
unchanged when unauthorized; otherwise succeed exactly when the new
liability value stays within [0, limit - balance] (buying) or [0, balance]
(selling); on success the updated liability is committed, and a line with
no liabilities extension has both fields initialized to zero before the
delta is applied, so its extension becomes (delta, 0) or (0, delta). -/
theorem claim_C6 (tf : TrustFrame) (delta : Int) (v : Nat) (hv : 10 ≤ v) :
    ((tf.mIsIssuer = true ∨ delta = 0) →
      tf.addBuyingLiabilities delta = (true, tf) ∧
      tf.addSellingLiabilities delta = (true, tf)) ∧
    (tf.mIsIssuer = false → delta ≠ 0 → tf.isAuthorized = false →
      tf.addBuyingLiabilities delta = (false, tf) ∧
      tf.addSellingLiabilities delta = (false, tf)) ∧
    (tf.mIsIssuer = false → delta ≠ 0 → tf.isAuthorized = true →
      ((tf.addBuyingLiabilities delta).1 = true ↔
        (0 ≤ tf.buyingLiabilities + delta ∧
          tf.buyingLiabilities + delta ≤
            tf.mTrustLine.limit - tf.mTrustLine.balance))) ∧
    (tf.mIsIssuer = false → delta ≠ 0 → tf.isAuthorized = true →
      ((tf.addSellingLiabilities delta).1 = true ↔
        (0 ≤ tf.sellingLiabilities + delta ∧
          tf.sellingLiabilities + delta ≤ tf.mTrustLine.balance))) ∧
    (tf.mIsIssuer = false → delta ≠ 0 → tf.isAuthorized = true →
      (tf.addBuyingLiabilities delta).1 = true →
      (tf.addBuyingLiabilities delta).2.mTrustLine.ext =
        .v1 ⟨tf.buyingLiabilities + delta, tf.sellingLiabilities⟩) ∧
    (tf.mIsIssuer = false → delta ≠ 0 → tf.isAuthorized = true →
      (tf.addSellingLiabilities delta).1 = true →
      (tf.addSellingLiabilities delta).2.mTrustLine.ext =
        .v1 ⟨tf.buyingLiabilities, tf.sellingLiabilities + delta⟩) ∧
    ((tf.addBuyingLiabilities delta).1 = false →
      (tf.addBuyingLiabilities delta).2 = tf) ∧
    ((tf.addSellingLiabilities delta).1 = false →
      (tf.addSellingLiabilities delta).2 = tf) := by
  refine ⟨?_, ?_, ?_, ?_, ?_, ?_, ?_, ?_⟩
  · intro h
    rw [addBuyingLiabilities_cases, addSellingLiabilities_cases, if_pos h,
      if_pos h]
    exact ⟨rfl, rfl⟩
  · intro hI hd hA
    rw [addBuyingLiabilities_cases, addSellingLiabilities_cases,
      if_neg (by simp [hI, hd]), if_pos hA, if_neg (by simp [hI, hd]),
      if_pos hA]
    exact ⟨rfl, rfl⟩
  · intro hI hd hA
    rw [addBuyingLiabilities_cases, if_neg (by simp [hI, hd]),
      if_neg (by simp [hA])]
    by_cases h3 : 0 ≤ tf.buyingLiabilities + delta ∧
        tf.buyingLiabilities + delta ≤
          tf.mTrustLine.limit - tf.mTrustLine.balance
    · rw [if_pos h3]
      simpa using h3
    · rw [if_neg h3]
      simpa using h3
  · intro hI hd hA
    rw [addSellingLiabilities_cases, if_neg (by simp [hI, hd]),
      if_neg (by simp [hA])]
    by_cases h3 : 0 ≤ tf.sellingLiabilities + delta ∧
        tf.sellingLiabilities + delta ≤ tf.mTrustLine.balance
    · rw [if_pos h3]
      simpa using h3
    · rw [if_neg h3]
      simpa using h3
  · intro hI hd hA hs
    revert hs
    rw [addBuyingLiabilities_cases, if_neg (by simp [hI, hd]),
      if_neg (by simp [hA])]
    by_cases h3 : 0 ≤ tf.buyingLiabilities + delta ∧
        tf.buyingLiabilities + delta ≤
          tf.mTrustLine.limit - tf.mTrustLine.balance
    · rw [if_pos h3]
      intro _
      rfl
    · rw [if_neg h3]
      intro hbad
      simp at hbad
  · intro hI hd hA hs
    revert hs
    rw [addSellingLiabilities_cases, if_neg (by simp [hI, hd]),
      if_neg (by simp [hA])]
    by_cases h3 : 0 ≤ tf.sellingLiabilities + delta ∧
        tf.sellingLiabilities + delta ≤ tf.mTrustLine.balance
    · rw [if_pos h3]
      intro _
      rfl
    · rw [if_neg h3]
      intro hbad
      simp at hbad
  · rw [addBuyingLiabilities_cases]
    split_ifs <;> simp
  · rw [addSellingLiabilities_cases]
    split_ifs <;> simp

/-- Witness for claim C6, on a line with limit 100, balance 40, authorized,
no extension: addBuyingLiabilities(30) succeeds and initializes the
extension to (30, 0); addSellingLiabilities(41) fails, 41 being above the
balance bound 40. -/
theorem claim_C6_witness :
    (TrustFrame.addBuyingLiabilities
      ⟨⟨"acc", .alphaNum4 "iss" "USD", 40, 100, 1, .v0, 0⟩, false⟩ 30).2.mTrustLine.ext =
      .v1 ⟨30, 0⟩ ∧
    (TrustFrame.addSellingLiabilities
      ⟨⟨"acc", .alphaNum4 "iss" "USD", 40, 100, 1, .v0, 0⟩, false⟩ 41).1 = false := by
  have h := claim_C6 ⟨⟨"acc", .alphaNum4 "iss" "USD", 40, 100, 1, .v0, 0⟩,
    false⟩ 30 10 (by decide)
  have h2 := claim_C6 ⟨⟨"acc", .alphaNum4 "iss" "USD", 40, 100, 1, .v0, 0⟩,
    false⟩ 41 10 (by decide)
  constructor
  · have := h.2.2.2.2.1 rfl (by decide) (by decide) (by decide)
    simpa using this
  · have hiff := h2.2.2.2.1 rfl (by decide) (by decide)
    cases hb : (TrustFrame.addSellingLiabilities
        ⟨⟨"acc", .alphaNum4 "iss" "USD", 40, 100, 1, .v0, 0⟩, false⟩ 41).1
    · rfl
    · exact absurd (hiff.mp hb) (by decide)

/-- Claim C7: the issuer trust line built by createIssuerFrame is always
authorized, has balance = limit = INT64_MAX and zero liabilities, and its
construction performs no storage access; loadTrustLine returns exactly such
a frame, with no storage query and the cache untouched, whenever the
requested account equals the issuer of the (non-native) asset; and
storeAddOrChange on an issuer frame issues no storage write: the table and
the accumulator are returned unchanged. -/
theorem claim_C7 (a : Asset) (acc : String) (cache : TLCache) (db : TLStore)
    (st : TLState) (accums : Option TLAccum)
    (hna : a ≠ .native) (hacc : acc = a.issuerStr) :
    (TrustFrame.createIssuerFrame a).isAuthorized = true ∧
    (TrustFrame.createIssuerFrame a).mTrustLine.balance = INT64_MAX ∧
    (TrustFrame.createIssuerFrame a).mTrustLine.limit = INT64_MAX ∧
    (TrustFrame.createIssuerFrame a).buyingLiabilities = 0 ∧
    (TrustFrame.createIssuerFrame a).sellingLiabilities = 0 ∧
    (TrustFrame.createIssuerFrame a).mIsIssuer = true ∧
    TrustFrame.loadTrustLine acc a cache db =
      some (some (TrustFrame.createIssuerFrame a), false, cache) ∧
    (TrustFrame.storeAddOrChange (TrustFrame.createIssuerFrame a) st
      accums).map (fun r => (r.1.db, r.2)) = some (st.db, accums) := by
  refine ⟨?_, rfl, rfl, rfl, rfl, rfl, ?_, ?_⟩
  · simp [TrustFrame.isAuthorized, TrustFrame.createIssuerFrame,
      AUTHORIZED_FLAG]
  · subst hacc
    cases a with
    | native => exact absurd rfl hna
    | alphaNum4 iss code => simp [TrustFrame.loadTrustLine]
    | alphaNum12 iss code => simp [TrustFrame.loadTrustLine]
  · simp [TrustFrame.storeAddOrChange, TrustFrame.createIssuerFrame]

/-- Witness for claim C7: loading the issuer of a concrete credit asset
yields the synthetic issuer frame with no storage query, on an empty cache
and an empty table. -/
theorem claim_C7_witness :
    TrustFrame.loadTrustLine "iss" (.alphaNum4 "iss" "USD") (fun _ => none)
      (fun _ => none) =
      some (some (TrustFrame.createIssuerFrame (.alphaNum4 "iss" "USD")),
        false, fun _ => none) :=
  (claim_C7 (.alphaNum4 "iss" "USD") "iss" (fun _ => none) (fun _ => none)
    ⟨⟨0, [], [], []⟩, fun _ => none, fun _ => none⟩ none (by decide)
    rfl).2.2.2.2.2.2.1

/-- Claim C8: storeDelete succeeds whether or not a row with the key
exists, records the key as deleted in the delta in both cases, leaves
every other row unchanged, and when no such row exists it leaves the table
entirely unchanged — for DataFrame, and for TrustFrame on any key that is
not an issuer self key. -/
theorem claim_C8 (ddelta : LedgerDelta DataKey) (dcache : DataCache)
    (ddb : DataDb) (dk : DataKey) (k : TLKey) (st : TLState)
    (hk : k.accountid ≠ k.issuer) :
    ((DataFrame.storeDelete ddelta dcache ddb dk).1.deleted =
      dk :: ddelta.deleted) ∧
    ((DataFrame.storeDelete ddelta dcache ddb dk).2.2.main dk = none) ∧
    (∀ k2, k2 ≠ dk →
      (DataFrame.storeDelete ddelta dcache ddb dk).2.2.main k2 =
        ddb.main k2) ∧
    (ddb.main dk = none →
      (DataFrame.storeDelete ddelta dcache ddb dk).2.2.main = ddb.main) ∧
    ((TrustFrame.storeDelete k st none).map (fun r => r.1.delta.deleted) =
      some (k :: st.delta.deleted)) ∧
    ((TrustFrame.storeDelete k st none).map (fun r => r.1.db k) =
      some none) ∧
    (∀ k2, k2 ≠ k →
      (TrustFrame.storeDelete k st none).map (fun r => r.1.db k2) =
        some (st.db k2)) ∧
    (st.db k = none →
      (TrustFrame.storeDelete k st none).map (fun r => r.1.db) =
        some st.db) := by
  refine ⟨rfl, ?_, ?_, ?_, ?_, ?_, ?_, ?_⟩
  · simp [DataFrame.storeDelete, DataStore.set]
  · intro k2 hne
    simp [DataFrame.storeDelete, DataStore.set, hne]
  · intro habs
    funext k2
    by_cases hk2 : k2 = dk
    · subst hk2
      simp [DataFrame.storeDelete, DataStore.set, habs]
    · simp [DataFrame.storeDelete, DataStore.set, hk2]
  · simp [TrustFrame.storeDelete, getKeyFields, hk, LedgerDelta.deleteEntry]
  · simp [TrustFrame.storeDelete, getKeyFields, hk, TLStore.set]
  · intro k2 hne
    simp [TrustFrame.storeDelete, getKeyFields, hk, TLStore.set, hne]
  · intro habs
    have hid : st.db.set k none = st.db := by
      funext k2
      by_cases hk2 : k2 = k
      · subst hk2
        simp [TLStore.set, habs]
      · simp [TLStore.set, hk2]
    simp [TrustFrame.storeDelete, getKeyFields, hk, hid]

/-- Witness for claim C8: deleting an absent key from an empty accountdata
table and an empty trustlines table records the deletion in both deltas. -/
theorem claim_C8_witness :
    (DataFrame.storeDelete ⟨0, [], [], []⟩ (fun _ => none)
      ⟨fun _ => none, fun _ => none⟩ ⟨"acc", "name"⟩).1.deleted =
      [⟨"acc", "name"⟩] ∧
    (TrustFrame.storeDelete ⟨"acc", "iss", "USD"⟩
      ⟨⟨0, [], [], []⟩, fun _ => none, fun _ => none⟩ none).map
      (fun r => r.1.delta.deleted) = some [⟨"acc", "iss", "USD"⟩] := by
  have h := claim_C8 ⟨0, [], [], []⟩ (fun _ => none)
    ⟨fun _ => none, fun _ => none⟩ ⟨"acc", "name"⟩ ⟨"acc", "iss", "USD"⟩
    ⟨⟨0, [], [], []⟩, fun _ => none, fun _ => none⟩ (by decide)
  exact ⟨h.1, h.2.2.2.2.1⟩

/-- Counterexample to claim C5 as stated: DataFrame::storeDelete does not
flush the cached entry for its key before issuing the write — with the
cache holding an entry for the key, the cache still holds that entry after
the delete, where the claim requires the slot to have been flushed
(none). -/
theorem claim_C5_counterexample :
    ((DataFrame.storeDelete ⟨0, [], [], []⟩
      (fun k => if k = ⟨"acc", "name"⟩ then some (some ⟨"val", 7⟩) else none)
      ⟨fun _ => none, fun _ => none⟩ ⟨"acc", "name"⟩).2.1 ⟨"acc", "name"⟩ =
      some (some ⟨"val", 7⟩)) ∧
    some (some (⟨"val", 7⟩ : DataRow)) ≠ (none : Option (Option DataRow)) :=
  ⟨by decide, by decide⟩

/-- Claim C5 amended: the TrustFrame write paths (storeAddOrChange and
storeDelete) flush the cached entry for their key before issuing the
write, so the cache slot for the key is unknown afterwards; the DataFrame
write paths never touch the entry cache (no flush): the cache is returned
unchanged. -/
theorem claim_C5_amended (tf : TrustFrame) (k : TLKey) (st : TLState)
    (acc : Option TLAccum) (df : DataFrame) (ddelta : LedgerDelta DataKey)
    (dcache : DataCache) (ddb : DataDb) (dk : DataKey) (mode : Nat)
    (bulk : Bool) :
    (∀ st2 acc2, TrustFrame.storeAddOrChange tf st acc = some (st2, acc2) →
      st2.cache tf.mTrustLine.key = none) ∧
    (∀ st2 acc2, TrustFrame.storeDelete k st acc = some (st2, acc2) →
      st2.cache k = none) ∧
    ((DataFrame.storeDelete ddelta dcache ddb dk).2.1 = dcache) ∧
    (∀ r, DataFrame.storeAddOrChange df ddelta dcache ddb mode bulk =
      some r → r.2.1 = dcache) := by
  refine ⟨?_, ?_, rfl, ?_⟩
  · intro st2 acc2 h
    simp only [TrustFrame.storeAddOrChange] at h
    have hc : st2.cache = st.cache.flushCachedEntry tf.mTrustLine.key := by
      repeat' split at h
      all_goals
        first
          | (simp only [Option.some.injEq, Prod.mk.injEq] at h
             obtain ⟨h1, -⟩ := h
             subst h1
             rfl)
          | simp at h
    rw [hc]
    simp [TLCache.flushCachedEntry]
  · intro st2 acc2 h
    simp only [TrustFrame.storeDelete] at h
    have hc : st2.cache = st.cache.flushCachedEntry k := by
      repeat' split at h
      all_goals
        first
          | (simp only [Option.some.injEq, Prod.mk.injEq] at h
             obtain ⟨h1, -⟩ := h
             subst h1
             rfl)
          | simp at h
    rw [hc]
    simp [TLCache.flushCachedEntry]
  · intro r h
    simp only [DataFrame.storeAddOrChange] at h
    repeat' split at h
    all_goals
      first
        | (simp only [Option.some.injEq] at h
           subst h
           rfl)
        | simp at h

/-- Witness for the amended claim C5: a concrete trust-line delete leaves
the cache slot for its key unknown, and a concrete accountdata delete
returns the cache unchanged. -/
theorem claim_C5_amended_witness :
    ((DataFrame.storeDelete ⟨0, [], [], []⟩ (fun _ => none)
      ⟨fun _ => none, fun _ => none⟩ ⟨"acc", "name"⟩).2.1 = fun _ => none) :=
  (claim_C5_amended
    ⟨⟨"acc", .alphaNum4 "iss" "USD", 0, 10, 1, .v0, 0⟩, false⟩
    ⟨"acc", "iss", "USD"⟩
    ⟨⟨0, [], [], []⟩, fun _ => none, fun _ => none⟩ none
    ⟨⟨"acc", "name", "val"⟩, 0⟩ ⟨0, [], [], []⟩ (fun _ => none)
    ⟨fun _ => none, fun _ => none⟩ ⟨"acc", "name"⟩ 0 false).2.2.1

/-- Counterexample to claim C4 as stated: with the cache recording the key
as known absent and the table empty, TrustFrame::exists still issues the
storage probe — it returns (false, true) (result, storage queried), where
the claim requires a known-absent cache hit to answer with no storage
query, (false, false). -/
theorem claim_C4_counterexample :
    TrustFrame.exists
      (fun k => if k = ⟨"acc", "iss", "USD"⟩ then some none else none)
      (fun _ => none) ⟨"acc", "iss", "USD"⟩ = some (false, true) ∧
    some ((false : Bool), (true : Bool)) ≠
      some ((false : Bool), (false : Bool)) :=
  ⟨by decide, by decide⟩

/-- Claim C4 amended: TrustFrame::exists consults the cache first but
short-circuits only on a hit holding an entry, returning true with no
storage query; on a cache miss and also on a cached known-absent marker it
issues the storage existence probe and returns that result; and
DataFrame::exists never consults the cache: it always issues the storage
probe. -/
theorem claim_C4_amended (cache : TLCache) (db : TLStore) (k : TLKey)
    (ddb : DataDb) (dk : DataKey) (hk : k.accountid ≠ k.issuer) :
    (∀ e, cache k = some (some e) →
      TrustFrame.exists cache db k = some (true, false)) ∧
    (cache k = none →
      TrustFrame.exists cache db k = some ((db k).isSome, true)) ∧
    (cache k = some none →
      TrustFrame.exists cache db k = some ((db k).isSome, true)) ∧
    DataFrame.exists ddb dk = ((ddb.main dk).isSome, true) := by
  refine ⟨?_, ?_, ?_, rfl⟩
  · intro e he
    simp [TrustFrame.exists, he]
  · intro he
    simp [TrustFrame.exists, he, getKeyFields, hk]
  · intro he
    simp [TrustFrame.exists, he, getKeyFields, hk]

/-- Witness for the amended claim C4: a cache hit holding an entry answers
true with no storage query, on an empty table. -/
theorem claim_C4_amended_witness :
    TrustFrame.exists
      (fun k => if k = ⟨"acc", "iss", "USD"⟩
        then some (some ⟨"acc", .alphaNum4 "iss" "USD", 5, 10, 1, .v0, 0⟩)
        else none)
      (fun _ => none) ⟨"acc", "iss", "USD"⟩ = some (true, false) :=
  (claim_C4_amended
    (fun k => if k = ⟨"acc", "iss", "USD"⟩
      then some (some ⟨"acc", .alphaNum4 "iss" "USD", 5, 10, 1, .v0, 0⟩)
      else none)
    (fun _ => none) ⟨"acc", "iss", "USD"⟩
    ⟨fun _ => none, fun _ => none⟩ ⟨"acc", "name"⟩ (by decide)).1
    ⟨"acc", .alphaNum4 "iss" "USD", 5, 10, 1, .v0, 0⟩ (by decide)

/-- Closed form of the advance() loop: from cumulative count s it processes
min (remaining, advanceChunk s) entries. -/
theorem advanceLoop_eq {α : Type} (l : List α) : ∀ s : Nat,
    advanceLoop s l =
      (s + min l.length (advanceChunk s),
        l.drop (min l.length (advanceChunk s))) := by
  induction l with
  | nil =>
    intro s
    simp [advanceLoop]
  | cons x rest ih =>
    intro s
    rw [advanceLoop]
    by_cases hb : (s + 1) % 256 = 255
    · rw [if_pos hb]
      have hc : advanceChunk s = 1 := by
        unfold advanceChunk
        split <;> omega
      have hm : min (x :: rest).length (advanceChunk s) = 1 := by
        simp [hc, List.length_cons]
      rw [hm]
      simp
    · rw [if_neg hb, ih (s + 1)]
      have hc : advanceChunk s = advanceChunk (s + 1) + 1 := by
        unfold advanceChunk
        split_ifs <;> omega
      rw [hc, List.length_cons, Nat.succ_min_succ, List.drop_succ_cons]
      have hadd : s + 1 + min rest.length (advanceChunk (s + 1)) =
          s + (min rest.length (advanceChunk (s + 1)) + 1) := by omega
      rw [hadd]

set_option maxRecDepth 8192 in
/-- Counterexample to claim C2 as stated: the first advance() call on a
fresh applicator over a 300-entry bucket processes only 255 entries, not a
full chunk of 256 — 45 entries remain, where a 256-entry chunk would have
left 44. -/
theorem claim_C2_counterexample :
    ((BucketApplicator.mk0
      (List.replicate 300 (0 : Nat))).advance).mBucketIter.length = 45 ∧
    (45 : Nat) ≠ 300 - 256 :=
  ⟨by decide, by decide⟩

set_option maxRecDepth 32768 in
/-- Claim C2 amended: each advance() call processes entries until the
bucket is exhausted or the cumulative count of entries applied over all
calls reaches 255 mod 256 — so the first call on a fresh applicator
processes up to 255 entries and every later call up to 256; a bucket of
1000 entries is still exhausted by exactly 4 advance() calls (the 3rd
leaves work, the 4th does not), and after the 4th the has-more-work
predicate (operator bool) is false with all 1000 entries applied. -/
theorem claim_C2_amended :
    (∀ (α : Type) (b : BucketApplicator α),
      b.advance.mSize =
        b.mSize + min b.mBucketIter.length (advanceChunk b.mSize) ∧
      b.advance.mBucketIter =
        b.mBucketIter.drop (min b.mBucketIter.length (advanceChunk b.mSize))) ∧
    advanceChunk 0 = 255 ∧
    (∀ s, 1 ≤ advanceChunk s ∧ advanceChunk s ≤ 256) ∧
    (∀ s, s % 256 = 255 → advanceChunk s = 256) ∧
    ((BucketApplicator.mk0
      (List.replicate 1000 (0 : Nat))).advanceN 3).hasMoreWork = true ∧
    ((BucketApplicator.mk0
      (List.replicate 1000 (0 : Nat))).advanceN 4).hasMoreWork = false ∧
    ((BucketApplicator.mk0
      (List.replicate 1000 (0 : Nat))).advanceN 4).mSize = 1000 := by
  refine ⟨?_, rfl, ?_, ?_, by decide, by decide, by decide⟩
  · intro α b
    unfold BucketApplicator.advance
    rw [advanceLoop_eq]
    exact ⟨rfl, rfl⟩
  · intro s
    unfold advanceChunk
    split <;> omega
  · intro s hs
    unfold advanceChunk
    rw [if_pos hs]

/-- Witness for the amended claim C2: from a cumulative count that is 255
mod 256 the next call may process a full 256 entries, and the first call on
a fresh 3-entry bucket processes all 3. -/
theorem claim_C2_amended_witness :
    advanceChunk 255 = 256 ∧
    (BucketApplicator.mk0 [0, 0, 0] : BucketApplicator Nat).advance.mSize
      = 3 := by
  constructor
  · exact claim_C2_amended.2.2.2.1 255 rfl
  · have h := (claim_C2_amended.1 Nat (BucketApplicator.mk0 [0, 0, 0])).1
    rw [h]
    decide

/-- The accountdata row written by storeAddOrChange for a frame under a
delta: the frame value, with lastmodified touched to the tracked header
sequence when that is not 0. -/
def dataRowFor (df : DataFrame) (seq : Nat) : DataRow :=
  ⟨df.mData.dataValue, if seq ≠ 0 then seq else df.lastModified⟩

/-- Characterization of the DataFrame upsert path (mode 0, primary table):
the write always succeeds, an insert fires exactly when no row with the key
exists (xmax = 0) and an update otherwise, and the row written carries the
touched lastmodified. -/
theorem dataUpsert_eq (df : DataFrame) (delta : LedgerDelta DataKey)
    (cache : DataCache) (db : DataDb) :
    DataFrame.storeAddOrChange df delta cache db 0 false =
      (if (db.main ⟨df.mData.accountID, df.mData.dataName⟩).isNone then
        some (delta.addEntry ⟨df.mData.accountID, df.mData.dataName⟩, cache,
          ⟨db.main.set ⟨df.mData.accountID, df.mData.dataName⟩
            (some (dataRowFor df delta.ledgerSeq)), db.bulkTable⟩)
      else
        some (delta.modEntry ⟨df.mData.accountID, df.mData.dataName⟩, cache,
          ⟨db.main.set ⟨df.mData.accountID, df.mData.dataName⟩
            (some (dataRowFor df delta.ledgerSeq)), db.bulkTable⟩)) := by
  by_cases ht : delta.ledgerSeq ≠ 0 <;>
    simp [DataFrame.storeAddOrChange, dataRowFor, ht]

/-- Delta recording of TrustFrame::storeAddOrChange: on success the entry
is recorded as modified exactly when a row with its key already exists, as
added otherwise. -/
theorem trustStore_delta_eq (tf : TrustFrame) (st : TLState)
    (accums : Option TLAccum) (st2 : TLState) (a2 : Option TLAccum)
    (h : TrustFrame.storeAddOrChange tf st accums = some (st2, a2)) :
    st2.delta = (if (st.db tf.mTrustLine.key).isSome
      then st.delta.modEntry tf.mTrustLine.key
      else st.delta.addEntry tf.mTrustLine.key) := by
  simp only [TrustFrame.storeAddOrChange] at h
  repeat' split at h
  all_goals
    first
      | (simp only [Option.some.injEq, Prod.mk.injEq] at h
         obtain ⟨h1, -⟩ := h
         subst h1
         simp_all)
      | simp at h

/-- Claim C3: for every entry, a successful storeAddOrChange records the
entry in the delta as added exactly when the write inserted a new row and
as modified exactly when it updated an existing row; applying the same key
twice with different payloads leaves the second payload persisted and
produces a modified (not added) record for the second application.  Stated
for the DataFrame upsert path (mode 0, primary table, as driven by the
bucket applicator) and for the TrustFrame store path. -/
theorem claim_C3 (df : DataFrame) (delta : LedgerDelta DataKey)
    (cache : DataCache) (db : DataDb) :
    (db.main ⟨df.mData.accountID, df.mData.dataName⟩ = none →
      (DataFrame.storeAddOrChange df delta cache db 0 false).map
        (fun r => (r.1.added, r.1.modified)) =
        some (⟨df.mData.accountID, df.mData.dataName⟩ :: delta.added,
          delta.modified)) ∧
    ((db.main ⟨df.mData.accountID, df.mData.dataName⟩).isSome →
      (DataFrame.storeAddOrChange df delta cache db 0 false).map
        (fun r => (r.1.added, r.1.modified)) =
        some (delta.added,
          ⟨df.mData.accountID, df.mData.dataName⟩ :: delta.modified)) ∧
    ((DataFrame.storeAddOrChange df delta cache db 0 false).map
      (fun r => (r.2.2.main ⟨df.mData.accountID, df.mData.dataName⟩).map
        (fun row => row.datavalue)) = some (some df.mData.dataValue)) ∧
    (∀ df2 delta2 cache2 r1 r2,
      df2.mData.accountID = df.mData.accountID →
      df2.mData.dataName = df.mData.dataName →
      DataFrame.storeAddOrChange df delta cache db 0 false = some r1 →
      DataFrame.storeAddOrChange df2 delta2 cache2 r1.2.2 0 false = some r2 →
      (r2.2.2.main ⟨df.mData.accountID, df.mData.dataName⟩).map
        (fun row => row.datavalue) = some df2.mData.dataValue ∧
      r2.1.modified =
        ⟨df.mData.accountID, df.mData.dataName⟩ :: delta2.modified ∧
      r2.1.added = delta2.added) ∧
    (∀ (tf : TrustFrame) (st : TLState) (st2 : TLState) (a2 : Option TLAccum),
      TrustFrame.storeAddOrChange tf st none = some (st2, a2) →
      (st.db tf.mTrustLine.key = none →
        st2.delta.added = tf.mTrustLine.key :: st.delta.added ∧
        st2.delta.modified = st.delta.modified) ∧
      ((st.db tf.mTrustLine.key).isSome →
        st2.delta.modified = tf.mTrustLine.key :: st.delta.modified ∧
        st2.delta.added = st.delta.added)) := by
  refine ⟨?_, ?_, ?_, ?_, ?_⟩
  · intro habs
    rw [dataUpsert_eq]
    simp [habs, LedgerDelta.addEntry]
  · intro hsome
    rw [dataUpsert_eq]
    rw [if_neg (by simp [Option.isNone_iff_eq_none]; exact
      Option.isSome_iff_ne_none.mp hsome)]
    simp [LedgerDelta.modEntry]
  · rw [dataUpsert_eq]
    split_ifs <;> simp [DataStore.set, dataRowFor]
  · intro df2 delta2 cache2 r1 r2 hacc hname h1 h2
    rw [dataUpsert_eq] at h1 h2
    have hkey : (⟨df2.mData.accountID, df2.mData.dataName⟩ : DataKey) =
        ⟨df.mData.accountID, df.mData.dataName⟩ := by rw [hacc, hname]
    rw [hkey] at h2
    have hr1main : r1.2.2.main ⟨df.mData.accountID, df.mData.dataName⟩ =
        some (dataRowFor df delta.ledgerSeq) := by
      split at h1 <;>
        (simp only [Option.some.injEq] at h1
         subst h1
         simp [DataStore.set])
    rw [hr1main] at h2
    simp only [Option.isNone_some, Bool.false_eq_true, if_false] at h2
    simp only [Option.some.injEq] at h2
    subst h2
    refine ⟨?_, ?_, ?_⟩
    · simp [DataStore.set, hacc, hname, dataRowFor]
    · simp [LedgerDelta.modEntry]
    · simp [LedgerDelta.modEntry]
  · intro tf st st2 a2 h
    have hd := trustStore_delta_eq tf st none st2 a2 h
    constructor
    · intro habs
      rw [hd, if_neg (by simp [habs])]
      exact ⟨rfl, rfl⟩
    · intro hsome
      rw [hd, if_pos (by simpa using hsome)]
      exact ⟨rfl, rfl⟩

/-- Witness for claim C3: upserting key (acc, name) over a table already
holding a row for it produces one modified record and no added record, and
the new payload is persisted. -/
theorem claim_C3_witness :
    (DataFrame.storeAddOrChange ⟨⟨"acc", "name", "v2"⟩, 0⟩ ⟨0, [], [], []⟩
      (fun _ => none)
      ⟨(fun k => if k = ⟨"acc", "name"⟩ then some ⟨"v1", 0⟩ else none),
        fun _ => none⟩ 0 false).map
      (fun r => (r.1.added, r.1.modified)) =
      some ([], [⟨"acc", "name"⟩]) := by
  have h := claim_C3 ⟨⟨"acc", "name", "v2"⟩, 0⟩ ⟨0, [], [], []⟩
    (fun _ => none)
    ⟨(fun k => if k = ⟨"acc", "name"⟩ then some ⟨"v1", 0⟩ else none),
      fun _ => none⟩
  have h2 := h.2.1 (by decide)
  simpa using h2

/-- Stage a list of writes into the accumulator in order, each through
mItems[k] = v. -/
def stageAll (a : TLAccum) (ws : List (TLKey × Option TLRow)) : TLAccum :=
  ws.foldl (fun acc w => acc.stage w.1 w.2) a

/-- The last write a list of writes stages for a key, when any. -/
def lastStaged (ws : List (TLKey × Option TLRow)) (k : TLKey) :
    Option (Option TLRow) :=
  (ws.reverse.find? (fun w => w.1 == k)).map (fun w => w.2)

/-- Per key, the accumulator after a list of writes holds the last write
staged for that key, and keys never staged keep their prior slot. -/
theorem stageAll_apply (ws : List (TLKey × Option TLRow)) :
    ∀ (a : TLAccum) (k : TLKey),
    stageAll a ws k =
      match lastStaged ws k with
      | some v => some v
      | none => a k := by
  induction ws with
  | nil =>
    intro a k
    rfl
  | cons w ws ih =>
    intro a k
    show stageAll (a.stage w.1 w.2) ws k = _
    rw [ih]
    unfold lastStaged
    rw [List.reverse_cons, List.find?_append]
    cases hfind : ws.reverse.find? (fun x => x.1 == k) with
    | some u => simp [hfind]
    | none =>
      simp only [hfind, Option.none_or]
      by_cases hkw : w.1 = k
      · simp [List.find?_cons, hkw, TLAccum.stage]
      · have hbeq : (w.1 == k) = false := by
          simp [hkw]
        simp only [List.find?_cons, hbeq, List.find?_nil]
        simp only [TLAccum.stage]
        rw [if_neg (fun hcon => hkw hcon.symm)]

/-- Claim C9: accumulator staging is last-write-wins per key: the
accumulator branches of storeAddOrChange and storeDelete each stage their
write by overwriting the slot for the frame key (mItems[k] = v), staging
a second write for an already staged key replaces the staged value, and
the flush applies, for each key, exactly the last write staged for it,
while unstaged keys keep their prior rows. -/
theorem claim_C9 (a : TLAccum) (k : TLKey) (v1 v2 : Option TLRow)
    (db : TLStore) (st : TLState) (tf : TrustFrame)
    (ws : List (TLKey × Option TLRow))
    (hIss : tf.mIsIssuer = false)
    (hktf : tf.mTrustLine.accountID ≠ tf.mTrustLine.asset.issuerStr)
    (hk : k.accountid ≠ k.issuer) :
    ((a.stage k v1).stage k v2 = a.stage k v2) ∧
    ((TrustFrame.storeAddOrChange tf st (some a)).map (fun r => r.2) =
      some (some (a.stage tf.mTrustLine.key
        (some (tf.touched st.delta.ledgerSeq).toRow)))) ∧
    ((TrustFrame.storeDelete k st (some a)).map (fun r => r.2) =
      some (some (a.stage k none))) ∧
    (∀ v, a k = some v → a.flush db k = v) ∧
    (a k = none → a.flush db k = db k) ∧
    ((stageAll a ws).flush db k =
      match lastStaged ws k with
      | some v => v
      | none => a.flush db k) := by
  refine ⟨?_, ?_, ?_, ?_, ?_, ?_⟩
  · funext k2
    simp only [TLAccum.stage]
    by_cases hk2 : k2 = k <;> simp [hk2]
  · simp [TrustFrame.storeAddOrChange, hIss, getKeyFields,
      TrustLineEntry.key, hktf]
  · simp [TrustFrame.storeDelete, getKeyFields, hk]
  · intro v hv
    simp [TLAccum.flush, hv]
  · intro hv
    simp [TLAccum.flush, hv]
  · show (match (stageAll a ws) k with
      | some v => v
      | none => db k) = _
    rw [stageAll_apply]
    cases hl : lastStaged ws k with
    | some v => simp [TLAccum.flush]
    | none => simp [TLAccum.flush]

/-- Witness for claim C9: staging an upsert and then a delete for the same
key leaves only the delete staged. -/
theorem claim_C9_witness :
    TLAccum.stage (TLAccum.stage (fun _ => none) ⟨"acc", "iss", "USD"⟩
      (some ⟨1, 5, 10, 1, 0, none⟩)) ⟨"acc", "iss", "USD"⟩ none =
      TLAccum.stage (fun _ => none) ⟨"acc", "iss", "USD"⟩ none :=
  (claim_C9 (fun _ => none) ⟨"acc", "iss", "USD"⟩
    (some ⟨1, 5, 10, 1, 0, none⟩) none (fun _ => none)
    ⟨⟨0, [], [], []⟩, fun _ => none, fun _ => none⟩
    ⟨⟨"acc", .alphaNum4 "iss" "USD", 0, 10, 1, .v0, 0⟩, false⟩ []
    rfl (by decide) (by decide)).1

end Stellar
